import Mathlib

/-!
Verification development for the `ulint` Umbrel app-store linter.

The Python source is shallowly embedded: strings are modelled as `List Char`
(operating on the character sequence exactly as Python string operations do),
dictionaries as association lists, and network calls as explicit parameters
(`Except Unit Nat` for an HTTP response that is either an exception or a
status code).  Pseudo-random number generation (`random.randint`) is modelled
by an explicit stream `rands : Nat → Nat` threaded through the code, where the
k-th call to `randint(1024, 65535)` returns `1024 + rands k % 64512`.
-/

namespace Ulint

/-! ## Generic string (character-list) utilities mirroring Python `str` ops -/

/-- Python `needle in haystack` / `haystack.find(needle)`: the first index at
which `pat` occurs as a contiguous substring of `l`, if any. -/
def findSubAux (pat : List Char) : List Char → Nat → Option Nat
  | [], i => if pat = [] then some i else none
  | c :: rest, i =>
    if pat.isPrefixOf (c :: rest) then some i else findSubAux pat rest (i + 1)

/-- `l.find(pat)` as an `Option Nat` (Python returns `-1` for `none`). -/
def findSub (pat l : List Char) : Option Nat :=
  findSubAux pat l 0

/-- Python `pat in l` substring test. -/
def containsSub (pat l : List Char) : Bool :=
  (findSub pat l).isSome

/-- Python `s.rsplit(sep, 1)`: split at the LAST occurrence of the character
`c`, returning the part before and after it; `none` when `c` does not occur. -/
def splitLast (c : Char) : List Char → Option (List Char × List Char)
  | [] => none
  | x :: xs =>
    match splitLast c xs with
    | some (a, b) => some (x :: a, b)
    | none => if x = c then some ([], xs) else none

/-- Python `s.split(sep)` for a single-character separator: always returns at
least one (possibly empty) part. -/
def splitAll (c : Char) : List Char → List (List Char)
  | [] => [[]]
  | x :: xs =>
    match splitAll c xs with
    | [] => [[]]
    | p :: ps => if x = c then [] :: p :: ps else (x :: p) :: ps

/-- Python `content.replace(pat, rep)` for a nonempty pattern: replace every
non-overlapping occurrence, scanning left to right.  The `fuel` argument only
makes the recursion structural (each step consumes at least one character, so
`fuel = l.length` always suffices); it exists so that the definition reduces
by evaluation. -/
def replaceAllAux (pat rep : List Char) : Nat → List Char → List Char
  | 0, l => l
  | _ + 1, [] => []
  | fuel + 1, c :: rest =>
    if pat.isPrefixOf (c :: rest) then
      rep ++ replaceAllAux pat rep fuel ((c :: rest).drop pat.length)
    else
      c :: replaceAllAux pat rep fuel rest

/-- Python `content.replace(pat, rep)` (the empty pattern never arises in the
embedded code; Python would intersperse `rep`, we return `l` unchanged). -/
def replaceAll (pat rep l : List Char) : List Char :=
  match pat with
  | [] => l
  | _ :: _ => replaceAllAux pat rep l.length l

/-- Python slice `l[a:b]` with full Python semantics for negative indices. -/
def pySlice (l : List Char) (a b : Int) : List Char :=
  let n : Int := l.length
  let norm : Int → Nat := fun x =>
    (min (max 0 (if x < 0 then n + x else x)) n).toNat
  (l.drop (norm a)).take (norm b - norm a)

/-! ## Core data models (`umbrel_linter/core/models.py`) -/

/-- Severity levels for linting results. -/
inductive Severity where
  | error
  | warning
  | info
deriving DecidableEq, Repr

/-- Represents a range of lines in a file. -/
structure LineRange where
  start : Nat
  «end» : Nat
deriving DecidableEq, Repr

/-- Represents a range of columns in a file. -/
structure ColumnRange where
  start : Nat
  «end» : Nat
deriving DecidableEq, Repr

/-- Represents a linting error (a Finding) with detailed information. -/
structure LintingError where
  id : String
  severity : Severity
  title : String
  message : String
  file : String
  properties_path : Option String := none
  line : Option LineRange := none
  column : Option ColumnRange := none
deriving DecidableEq, Repr

/-- Container for linting results (the Report). -/
structure LintingResult where
  errors : List LintingError := []
  success : Bool := true
  total_errors : Nat := 0
  total_warnings : Nat := 0
  total_info : Nat := 0
deriving DecidableEq, Repr

/-- The freshly constructed `LintingResult()` with pydantic defaults. -/
def LintingResult.empty : LintingResult := {}

/-- `LintingResult.add_error`: append the finding, set `success` to `False`
only for Error severity, and bump the matching counter. -/
def LintingResult.add_error (r : LintingResult) (e : LintingError) : LintingResult :=
  { r with
    errors := r.errors ++ [e]
    success := if e.severity = Severity.error then false else r.success
    total_errors := if e.severity = Severity.error then r.total_errors + 1 else r.total_errors
    total_warnings := if e.severity = Severity.warning then r.total_warnings + 1 else r.total_warnings
    total_info := if e.severity = Severity.info then r.total_info + 1 else r.total_info }


/-! ## Variable mocker (`umbrel_linter/validators/variable_mocker.py`) -/

/-- Character class `[a-zA-Z0-9_\-:]` of the placeholder-name regex. -/
def varChar (c : Char) : Bool :=
  c.isAlpha || c.isDigit || c = '_' || c = '-' || c = ':'

/-- Scanner state for the placeholder regex
`\$(?:([a-zA-Z0-9_\-:]+)|\{([a-zA-Z0-9_\-:]+)\})`.  `normal`: outside any
candidate match; `afterDollar`: a `$` was just read; `inName acc`: inside the
first alternative `$NAME` with the name read so far (reversed); `inBrace acc`:
inside the second alternative `${NAME}` with the name read so far (reversed). -/
inductive ScanState where
  | normal
  | afterDollar
  | inName (acc : List Char)
  | inBrace (acc : List Char)
deriving DecidableEq, Repr

/-- One step of the left-to-right regex scan: consume one character, emit any
completed capture.  Because no character of the name class is `$`, `{` or
`}`, the Python regex engine's scan (try the first alternative, then the
braced alternative, else advance one position and retry) never backtracks and
is exactly this state machine. -/
def scanChar : ScanState → Char → List (List Char) × ScanState
  | .normal, c => ([], if c = '$' then .afterDollar else .normal)
  | .afterDollar, c =>
    if c = '{' then ([], .inBrace [])
    else if varChar c then ([], .inName [c])
    else ([], if c = '$' then .afterDollar else .normal)
  | .inName acc, c =>
    if varChar c then ([], .inName (c :: acc))
    else ([acc.reverse], if c = '$' then .afterDollar else .normal)
  | .inBrace acc, c =>
    if varChar c then ([], .inBrace (c :: acc))
    else if c = '}' ∧ acc ≠ [] then ([acc.reverse], .normal)
    else ([], if c = '$' then .afterDollar else .normal)

/-- The scan loop; at end of input an in-progress `$NAME` capture (the first
alternative may end at end-of-string) is emitted. -/
def scanVarsAux (st : ScanState) : List Char → List (List Char)
  | [] =>
    match st with
    | .inName acc => [acc.reverse]
    | _ => []
  | c :: rest =>
    let (out, st') := scanChar st c
    out ++ scanVarsAux st' rest

/-- The non-overlapping left-to-right scan performed by
`re.findall(r'\$(?:([a-zA-Z0-9_\-:]+)|\{([a-zA-Z0-9_\-:]+)\})', content)`:
returns the captured variable name of each match, in order. -/
def scanVars (content : List Char) : List (List Char) :=
  scanVarsAux .normal content

/-- One entry of the `variables` list built by `_extract_variables`. -/
structure VarEntry where
  full_variable : List Char
  name : List Char
  mock : List Char := []
deriving DecidableEq, Repr

/-- The `full_variable` computation of `_extract_variables`:
`f"${{{variable}}}" if "{" in content[content.find(f"${variable}") :
content.find(f"${variable}") + len(f"${variable}") + 1] else f"${variable}"`,
with Python's `find` returning `-1` when absent and Python slice semantics. -/
def fullVariable (content v : List Char) : List Char :=
  let dv := '$' :: v
  let idx : Int := match findSub dv content with
    | some n => (n : Int)
    | none => -1
  if (pySlice content idx (idx + dv.length + 1)).contains '{' then
    '$' :: '{' :: (v ++ ['}'])
  else
    dv

/-- `VariableMocker._extract_variables` (mock field initialised to `""`). -/
def extractVariables (content : List Char) : List VarEntry :=
  (scanVars content).map fun v =>
    { full_variable := fullVariable content v, name := v }

/-- The fixed part of the `elif` keyword chain of `VariableMocker._find_mocks`
(everything below the `_PORT` branch), as a priority table in exact source
order: the first keyword contained in the variable name wins. -/
def mockTail : List (List Char × List Char) :=
  [("_PASS".data, "password".data),
   ("_USER".data, "username".data),
   ("_DIR".data, "/path/to/dir".data),
   ("_PATH".data, "/some/path".data),
   ("_SERVICE".data, "service".data),
   ("_SEED".data, "seed".data),
   ("_CONFIG".data, "/path/to/config".data),
   ("_MODE".data, "production".data),
   ("_NETWORK".data, "network".data),
   ("_DOMAIN".data, "domain.com".data),
   ("_NAME".data, "name".data),
   ("_VERSION".data, "1.0.0".data),
   ("_ROOT".data, "/path/to/root".data),
   ("_KEY".data, "key".data),
   ("_SECRET".data, "secret".data),
   ("_TOKEN".data, "token".data),
   ("_HOST".data, "host".data)]

/-- Run an `elif` priority table: first keyword contained in `v` wins; the
final `else` of `_find_mocks` yields `"mocked"`. -/
def tableLookup : List (List Char × List Char) → List Char → List Char
  | [], _ => "mocked".data
  | (kw, m) :: rest, v => if containsSub kw v then m else tableLookup rest v

/-- The keyword chain of `VariableMocker._find_mocks` for one variable name,
in source order (`_IP` first, then `_PORT`, then the fixed table); returns
the mock text and the next index into the random stream
(`random.randint(1024, 65535)` is consumed only by the `_PORT` branch). -/
def findMockValue (rands : Nat → Nat) (k : Nat) (v : List Char) : List Char × Nat :=
  if containsSub "_IP".data v then ("10.10.10.10".data, k)
  else if containsSub "_PORT".data v then ((Nat.repr (1024 + rands k % 64512)).data, k + 1)
  else (tableLookup mockTail v, k)

/-- `VariableMocker._find_mocks`: fill in the `mock` field of every entry. -/
def findMocks (rands : Nat → Nat) (k : Nat) : List VarEntry → List VarEntry
  | [] => []
  | e :: rest =>
    let (m, k') := findMockValue rands k e.name
    { e with mock := m } :: findMocks rands k' rest

/-- `VariableMocker._replace_variables`: successively `str.replace` each
full variable occurrence with its mock value. -/
def replaceVariables (content : List Char) (entries : List VarEntry) : List Char :=
  entries.foldl (fun c e => replaceAll e.full_variable e.mock c) content

/-- `VariableMocker.mock_variables`. -/
def mockVariables (rands : Nat → Nat) (content : List Char) : List Char :=
  replaceVariables content (findMocks rands 0 (extractVariables content))

/-- Whether a variable name reaches the `_PORT` (random) branch of
`_find_mocks`: it contains `_PORT` but not `_IP`. -/
def hitsPortBranch (v : List Char) : Bool :=
  !containsSub "_IP".data v && containsSub "_PORT".data v


/-! ## Docker images (`umbrel_linter/validators/docker_image_validator.py`) -/

/-- A Docker image reference, fields as in the `DockerImage` class. -/
structure DockerImage where
  host : List Char
  path : List Char
  tag : Option (List Char)
  digest : Option (List Char)
deriving DecidableEq, Repr

/-- The digest split of `DockerImage.from_string`:
`image_part, digest = image_string.rsplit("@", 1)` when `"@" in image_string`. -/
def splitDigest (s : List Char) : List Char × Option (List Char) :=
  match splitLast '@' s with
  | some (a, b) => (a, some b)
  | none => (s, none)

/-- The tag split of `DockerImage.from_string`:
`name_part, tag = image_part.rsplit(":", 1)` when `":" in image_part`. -/
def splitTag (s : List Char) : List Char × Option (List Char) :=
  match splitLast ':' s with
  | some (a, b) => (a, some b)
  | none => (s, none)

/-- The registry/path resolution of `DockerImage.from_string` on
`name_part.split("/")`: a single name maps to Docker Hub's `library`
namespace, two parts are a registry+path if the first looks like a host
(contains `.` or `:`) and a Docker Hub namespace otherwise, three or more
parts are a registry followed by the joined remainder. -/
def parseName (namePart : List Char) : List Char × List Char :=
  match splitAll '/' namePart with
  | [] => ("docker.io".data, "library/".data)
  | [p] => ("docker.io".data, "library/".data ++ p)
  | [p1, p2] =>
    if p1.contains '.' || p1.contains ':' then (p1, p2)
    else ("docker.io".data, p1 ++ '/' :: p2)
  | p1 :: rest => (p1, List.intercalate ['/'] rest)

/-- `DockerImage.from_string` (total: the Python code cannot raise). -/
def DockerImage.fromString (s : List Char) : DockerImage :=
  let pd := splitDigest s
  let pt := splitTag pd.1
  let hp := parseName pt.1
  { host := hp.1, path := hp.2, tag := pt.2, digest := pd.2 }

/-- `DockerImage.__str__`: `host/path[:tag][@digest]`, where an empty (falsy)
tag or digest is omitted just as `None` is. -/
def DockerImage.str (i : DockerImage) : List Char :=
  let base := i.host ++ '/' :: i.path
  let withTag :=
    match i.tag with
    | some t => if t.isEmpty then base else base ++ ':' :: t
    | none => base
  match i.digest with
  | some d => if d.isEmpty then withTag else withTag ++ '@' :: d
  | none => withTag


/-! ### `validate_images` of `DockerImageValidator` -/

/-- Character class `[a-zA-Z0-9./:_-]` of the image-format regex. -/
def isClass1 (c : Char) : Bool :=
  c.isAlpha || c.isDigit || c = '.' || c = '/' || c = ':' || c = '_' || c = '-'

/-- Hex-digit class `[0-9a-fA-F]` of the image-format regex. -/
def isHexChar (c : Char) : Bool :=
  c.isDigit || ('a' ≤ c && c ≤ 'f') || ('A' ≤ c && c ≤ 'F')

/-- `[0-9a-fA-F]{n}` followed by end of string. -/
def matchHexEnd : Nat → List Char → Bool
  | 0, [] => true
  | 0, _ :: _ => false
  | _ + 1, [] => false
  | n + 1, c :: rest => isHexChar c && matchHexEnd n rest

/-- `sha256:[0-9a-fA-F]{64}$`, the part after the `@`. -/
def matchAfterAt (s : List Char) : Bool :=
  "sha256:".data.isPrefixOf s && matchHexEnd 64 (s.drop 7)

/-- Scanning inside `[^@]+` for the single allowed `@` (the class `[^@]`
cannot consume an `@`, so no backtracking ever occurs). -/
def matchMidAux : List Char → Bool
  | [] => false
  | c :: rest => if c = '@' then matchAfterAt rest else matchMidAux rest

/-- `[^@]+@sha256:[0-9a-fA-F]{64}$`, the part after the tag separator. -/
def matchMid : List Char → Bool
  | [] => false
  | c :: rest => c ≠ '@' && matchMidAux rest

/-- Continuation of `[a-zA-Z0-9./:_-]+` after at least one class character:
either the tag separator `:` starts here (the class includes `:` so every
split position is tried, which realises the regex engine's backtracking) or
another class character is consumed. -/
def conformsAux : List Char → Bool
  | [] => false
  | c :: rest => (c = ':' && matchMid rest) || (isClass1 c && conformsAux rest)

/-- `re.match(r"^[a-zA-Z0-9./:_-]+:[^@]+@sha256:[0-9a-fA-F]{64}$", s)` of
`validate_images` (with `$` as true end-of-string; the linter never feeds
image strings with a trailing newline, the only case where Python differs). -/
def conformsFormat : List Char → Bool
  | [] => false
  | c :: rest => isClass1 c && conformsAux rest

/-- Python truthiness of `service_config.get("image")`: missing key and empty
string are both falsy and skip the service. -/
def truthyImage : Option (List Char) → Option (List Char)
  | none => none
  | some [] => none
  | some (c :: rest) => some (c :: rest)

/-- The Error finding of the digest-format check. -/
def formatErrorFinding (app_id : String) (service_name : String) (s : List Char) : LintingError :=
  { id := "invalid_docker_image_name"
    severity := Severity.error
    title := "Invalid image name \"" ++ String.mk s ++ "\""
    message := "Images must include an immutable digest: \"<name>:<version-tag>@sha256:<64-hex>\""
    file := app_id ++ "/docker-compose.yml"
    properties_path := some ("services." ++ service_name ++ ".image") }

/-- The Warning finding for a `latest` tag. -/
def latestTagFinding (app_id : String) (service_name : String) : LintingError :=
  { id := "invalid_docker_image_name"
    severity := Severity.warning
    title := "Invalid image tag \"latest\""
    message := "Images should not use the \"latest\" tag"
    file := app_id ++ "/docker-compose.yml"
    properties_path := some ("services." ++ service_name ++ ".image") }

/-- `DockerImageValidator.validate_images`, instrumented: the registry
architecture resolution (`registry_client.validate_image`, a network effect)
is passed in as `oracle`, and the list of images it is invoked on is returned
alongside the findings so that theorems can speak about which images undergo
architecture resolution.  (`DockerImage.from_string` is total, so the
`except` branch around it is dead; `validate_image` catches its own network
failures, so the outer `except` around the architecture check is dead too.) -/
def validateImages (oracle : DockerImage → List LintingError)
    (check_architectures : Bool) (app_id : String) :
    List (String × Option (List Char)) → List LintingError × List DockerImage
  | [] => ([], [])
  | (service_name, img?) :: services =>
    let tailRes := validateImages oracle check_architectures app_id services
    match truthyImage img? with
    | none => tailRes
    | some s =>
      let image := DockerImage.fromString s
      let fmtErrs :=
        if conformsFormat s then
          if image.tag = some "latest".data then [latestTagFinding app_id service_name] else []
        else
          [formatErrorFinding app_id service_name s]
      if check_architectures then
        let archErrs := (oracle image).map fun e =>
          { e with
            file := app_id ++ "/docker-compose.yml"
            properties_path := some ("services." ++ service_name ++ ".image") }
        (fmtErrs ++ archErrs ++ tailRes.1, image :: tailRes.2)
      else
        (fmtErrs ++ tailRes.1, tailRes.2)

/-! ## GitHub existence checks (`umbrel_linter/validators/github_validator.py`)

The run-scoped cache `self._cache : dict[str, bool]` is modelled as an
association list where insertion prepends (so the newest binding shadows any
older one, like dict assignment), and each HTTP round-trip is an explicit
`Except Unit Nat` argument: `.error ()` is any raised exception (network
error, timeout, ...), `.ok s` a response with status code `s`. -/

/-- Lookup in the run cache. -/
def cacheLookup (cache : List (List Char × Bool)) (url : List Char) : Option Bool :=
  match cache with
  | [] => none
  | (u, b) :: rest => if u = url then some b else cacheLookup rest url

/-- `self._cache[url] = b`. -/
def cacheInsert (cache : List (List Char × Bool)) (url : List Char) (b : Bool) :
    List (List Char × Bool) :=
  (url, b) :: cache

/-- `GitHubValidator._pr_exists`: consult the cache; otherwise, when the URL
parses as owner/repo/number use the REST API, else fall back to the HTML
page — in both cases 200 means exists, 404 means not found, and any other
status is assumed to exist; any exception is assumed to exist.  The answer is
cached either way.  Returns the answer and the updated cache. -/
def prExists (cache : List (List Char × Bool)) (pr_url : List Char)
    (parsed : Option (List Char × List Char × List Char))
    (resp : Except Unit Nat) : Bool × List (List Char × Bool) :=
  match cacheLookup cache pr_url with
  | some b => (b, cache)
  | none =>
    match resp with
    | .error _ => (true, cacheInsert cache pr_url true)
    | .ok status =>
      match parsed with
      | some _ =>
        let ex := if status = 200 then true else if status = 404 then false else true
        (ex, cacheInsert cache pr_url ex)
      | none =>
        let ex := if status = 200 then true else if status = 404 then false else true
        (ex, cacheInsert cache pr_url ex)

/-- `GitHubValidator._repo_exists`: consult the cache; otherwise the
repository exists iff the response status is exactly 200 (`exists =
response.status_code == 200`); any exception is assumed to exist.  The
answer is cached either way. -/
def repoExists (cache : List (List Char × Bool)) (repo_url : List Char)
    (resp : Except Unit Nat) : Bool × List (List Char × Bool) :=
  match cacheLookup cache repo_url with
  | some b => (b, cache)
  | none =>
    match resp with
    | .error _ => (true, cacheInsert cache repo_url true)
    | .ok status =>
      let ex : Bool := status = 200
      (ex, cacheInsert cache repo_url ex)

/-- A representative architecture finding as produced by
`DockerRegistryClient.validate_image` when an image lacks a required
architecture (used to witness what `validate_images` does with registry
results). -/
def archFindingExample : LintingError :=
  { id := "invalid_image_architectures"
    severity := Severity.error
    title := "Invalid image architectures"
    message := "The image does not support the architectures arm64 and amd64"
    file := "docker-compose.yml"
    properties_path := some "services.image" }

/-! ## Linting orchestrator (`umbrel_linter/core/linter.py`) -/

/-- The fields of the YAML-parsed manifest dictionary consumed by
`_get_used_ports` (`data.get("id")`, `data.get("name")`, `data.get("port")`);
`port` models the integer value of the port entry, `none` when the key is
missing or `int(port)` would fail. -/
structure ManifestPortData where
  id : Option (List Char) := none
  name : Option (List Char) := none
  port : Option Int := none
deriving DecidableEq, Repr

/-- Python dict assignment `used_ports[port_int] = name`: overwrite an
existing binding, else append. -/
def upsertPort (l : List (Int × List Char)) (k : Int) (v : List Char) :
    List (Int × List Char) :=
  match l with
  | [] => [(k, v)]
  | (k', v') :: rest =>
    if k' = k then (k, v) :: rest else (k', v') :: upsertPort rest k v

/-- `port in used_ports` / `used_ports[port]`. -/
def lookupPort (l : List (Int × List Char)) (k : Int) : Option (List Char) :=
  match l with
  | [] => none
  | (k', v') :: rest => if k' = k then some v' else lookupPort rest k

/-- `UmbrelLinter._get_used_ports`: one entry per manifest whose `id`,
`name` and `port` are all present and truthy (Python: empty strings and a
zero port are falsy) and whose id differs from the current app; the parse
step `parse_yaml_with_error_handling` is modelled by the manifests arriving
pre-parsed as `Option ManifestPortData` (`none`: unparseable or not a dict). -/
def getUsedPorts (all_manifests : List (Option ManifestPortData))
    (current_app_id : List Char) : List (Int × List Char) :=
  all_manifests.foldl
    (fun used m? =>
      match m? with
      | none => used
      | some d =>
        match d.id, d.name, d.port with
        | some i, some n, some p =>
          if i ≠ [] ∧ n ≠ [] ∧ p ≠ 0 ∧ i ≠ current_app_id then
            upsertPort used p (n ++ " (".data ++ i ++ ")".data)
          else used
        | _, _, _ => used)
    []

/-- The manifest fields used by `_validate_app_manifest` after schema
construction. -/
structure UmbrelAppManifest where
  port : Int
  submission : List Char
  releaseNotes : Option (List Char) := none
  icon : Option (List Char) := none
  gallery : List (List Char) := []
deriving DecidableEq, Repr

/-- The `LintingContext` fields consumed by `_validate_app_manifest`. -/
structure LintingContext where
  is_new_submission : Bool := false
  pull_request_url : Option (List Char) := none
  all_app_manifests : List (Option ManifestPortData) := []
deriving DecidableEq, Repr

/-- Python truthiness of an optional string. -/
def pyTruthyStr : Option (List Char) → Bool
  | none => false
  | some [] => false
  | some (_ :: _) => true

/-- A Python exception escaping a function. -/
inductive PyError where
  | attributeError
deriving DecidableEq, Repr

/-- Finding `invalid_submission_field` of the new-submission check. -/
def invalidSubmissionFinding (app_id submission pr : List Char) : LintingError :=
  { id := "invalid_submission_field"
    severity := Severity.error
    title := "Invalid submission field \"" ++ String.mk submission ++ "\""
    message := "The submission field must be set to the URL of this pull request: " ++ String.mk pr
    file := String.mk app_id ++ "/umbrel-app.yml"
    properties_path := some "submission" }

/-- Finding `filled_out_release_notes_on_first_submission`. -/
def releaseNotesFinding (app_id : List Char) : LintingError :=
  { id := "filled_out_release_notes_on_first_submission"
    severity := Severity.error
    title := "\"releaseNotes\" needs to be empty for new app submissions"
    message := "The \"releaseNotes\" field must be empty for new app submissions as it is being displayed to the user only in case of an update."
    file := String.mk app_id ++ "/umbrel-app.yml"
    properties_path := some "releaseNotes" }

/-- Finding `filled_out_icon_or_gallery_on_first_submission`. -/
def iconGalleryFinding (app_id : List Char) (iconTruthy : Bool) : LintingError :=
  { id := "filled_out_icon_or_gallery_on_first_submission"
    severity := Severity.warning
    title := "\"icon\" and \"gallery\" needs to be empty for new app submissions"
    message := "The \"icon\" and \"gallery\" fields must be empty for new app submissions as it is being created by the Umbrel team."
    file := String.mk app_id ++ "/umbrel-app.yml"
    properties_path := some (if iconTruthy then "icon" else "gallery") }

/-- Finding `duplicate_ui_port`. -/
def duplicatePortFinding (app_id : List Char) (port : Int) (app_name : List Char) : LintingError :=
  { id := "duplicate_ui_port"
    severity := Severity.error
    title := "Port " ++ toString port ++ " is already used by " ++ String.mk app_name
    message := "Each app must use a unique port"
    file := String.mk app_id ++ "/umbrel-app.yml"
    properties_path := some "port" }

/-- The tail of `UmbrelLinter._validate_app_manifest` after the manifest file
was read and its YAML parsed: GitHub URL findings arrive first (network
effect, passed in), then `UmbrelAppManifest(**data)` is attempted —
`schema` is `.ok manifest` on success and `.error finding` for the single
formatted `schema_validation_error` finding the `except` block appends
(after which `manifest = None` and validation continues) — then the
new-submission checks (gated on `manifest is not None`), then the
duplicate-port check.  The duplicate-port check is NOT gated on
`manifest is not None`: evaluating `manifest.port` with `manifest = None`
raises `AttributeError`, which this embedding returns as `.error`. -/
def validateAppManifestChecks (github_errors : List LintingError)
    (schema : Except LintingError UmbrelAppManifest)
    (app_id : List Char) (ctx : LintingContext) :
    Except PyError (List LintingError) :=
  let errors := github_errors
  let manifest? : Option UmbrelAppManifest :=
    match schema with
    | .ok m => some m
    | .error _ => none
  let errors :=
    match schema with
    | .ok _ => errors
    | .error e => errors ++ [e]
  let errors :=
    match ctx.is_new_submission, manifest? with
    | true, some m =>
      let errors := errors ++
        (if pyTruthyStr ctx.pull_request_url &&
            decide (some m.submission ≠ ctx.pull_request_url) then
          [invalidSubmissionFinding app_id m.submission
            (ctx.pull_request_url.getD [])]
        else [])
      let errors := errors ++
        (if pyTruthyStr m.releaseNotes && decide (0 < (m.releaseNotes.getD []).length) then
          [releaseNotesFinding app_id]
        else [])
      errors ++
        (if pyTruthyStr m.icon || decide (m.gallery ≠ [] ∧ 0 < m.gallery.length) then
          [iconGalleryFinding app_id (pyTruthyStr m.icon)]
        else [])
    | _, _ => errors
  if ctx.all_app_manifests ≠ [] then
    let used_ports := getUsedPorts ctx.all_app_manifests app_id
    match manifest? with
    | none => .error PyError.attributeError
    | some m =>
      match lookupPort used_ports m.port with
      | some app_name => .ok (errors ++ [duplicatePortFinding app_id m.port app_name])
      | none => .ok errors
  else
    .ok errors

/-- The merge loop of `UmbrelLinter.lint_all_apps` (store-directory path):
start from a fresh `LintingResult`, extend `errors` with the store result's
errors and AND the success flags, then do the same for each app result in
order.  The counters are never touched (`errors.extend` bypasses
`add_error`). -/
def lintAllAppsMerge (store_result : LintingResult)
    (app_results : List LintingResult) : LintingResult :=
  let result := LintingResult.empty
  let result :=
    { result with
      errors := result.errors ++ store_result.errors
      success := result.success && store_result.success }
  app_results.foldl
    (fun r a =>
      { r with
        errors := r.errors ++ a.errors
        success := r.success && a.success })
    result

/-- The store-level finding `missing_umbrel_app_store_yml` emitted by
`lint_app_store` for a community store without `umbrel-app-store.yml`. -/
def missingStoreManifestFinding : LintingError :=
  { id := "missing_umbrel_app_store_yml"
    severity := Severity.error
    title := "umbrel-app-store.yml does not exist"
    message := "For community app stores, the file umbrel-app-store.yml is required"
    file := "umbrel-app-store.yml" }

/-- The store-level finding `missing_readme` emitted by `lint_app_store`
when `README.md` is absent. -/
def missingReadmeFinding : LintingError :=
  { id := "missing_readme"
    severity := Severity.warning
    title := "README.md does not exist"
    message := "A README.md file is highly recommended to tell users, how to install your App Store and what apps are available"
    file := "README.md" }

/-- A representative `schema_validation_error` finding as appended by the
`except` block of `_validate_app_manifest` when `UmbrelAppManifest(**data)`
raises. -/
def schemaFailureFindingExample : LintingError :=
  { id := "schema_validation_error"
    severity := Severity.error
    title := "umbrel-app.yml validation failed"
    message := "1 validation error for UmbrelAppManifest"
    file := "my-app/umbrel-app.yml" }

/-- The `lint_app_store` result for an empty community store directory
(no store manifest, no README), built through `add_error` as the source
does. -/
def emptyDirStoreResult : LintingResult :=
  (LintingResult.empty.add_error missingStoreManifestFinding).add_error
    missingReadmeFinding

/-! ## Store manifest id validation
(`UmbrelAppStoreManifest.validate_id` in `umbrel_linter/schemas/umbrel_app.py`) -/

/-- The `[a-z]` class (codepoints 97–122). -/
def isLowerAZ (c : Char) : Bool :=
  97 ≤ c.toNat && c.toNat ≤ 122

/-- Recogniser for the store-id regex `^[a-z]+(?:-[a-z]+)*$`: `needLetter`
is true at the start and right after a dash, where only a lowercase letter
may follow; a dash is allowed only after at least one letter of a group. -/
def matchIdTail (needLetter : Bool) : List Char → Bool
  | [] => !needLetter
  | c :: rest =>
    if isLowerAZ c then matchIdTail false rest
    else if c = '-' && !needLetter then matchIdTail true rest
    else false

/-- `re.match(r"^[a-z]+(?:-[a-z]+)*$", v)` of `validate_id`. -/
def storeIdFormat (v : List Char) : Bool :=
  matchIdTail true v

/-- `UmbrelAppStoreManifest.validate_id`: `true` iff the validator returns
the value instead of raising — the id must not start with the reserved
prefix `umbrel-app-store` and must match the format regex. -/
def validateStoreId (v : List Char) : Bool :=
  !("umbrel-app-store".data.isPrefixOf v) && storeIdFormat v


/-- The claim-side notion of letter case: ASCII lowering (uppercase letters
65–90 map down by 32, everything else is fixed). -/
def lowerChar (c : Char) : Char :=
  if 65 ≤ c.toNat ∧ c.toNat ≤ 90 then Char.ofNat (c.toNat + 32) else c

/-! ## Supporting lemmas -/

/-! These lemmas support C2. -/

theorem add_error_success (r : LintingResult) (e : LintingError) :
    (r.add_error e).success = false ↔
      (r.success = false ∨ e.severity = Severity.error) := by
  simp only [LintingResult.add_error]
  by_cases h : e.severity = Severity.error <;> simp [h]

theorem foldl_add_error_success (l : List LintingError) :
    ∀ r : LintingResult,
      (l.foldl LintingResult.add_error r).success = false ↔
        (r.success = false ∨ ∃ e ∈ l, e.severity = Severity.error) := by
  induction l with
  | nil => intro r; simp
  | cons x xs ih =>
    intro r
    simp only [List.foldl_cons]
    rw [ih]
    rw [add_error_success]
    constructor
    · rintro (h | h)
      · rcases h with h | h
        · exact Or.inl h
        · exact Or.inr ⟨x, List.mem_cons_self x xs, h⟩
      · rcases h with ⟨e, he, hs⟩
        exact Or.inr ⟨e, List.mem_cons_of_mem x he, hs⟩
    · rintro (h | ⟨e, he, hs⟩)
      · exact Or.inl (Or.inl h)
      · rcases List.mem_cons.mp he with rfl | he'
        · exact Or.inl (Or.inr hs)
        · exact Or.inr ⟨e, he', hs⟩
theorem findMockValue_no_port (rands rands' : Nat → Nat) (k k' : Nat)
    (v : List Char) (h : hitsPortBranch v = false) :
    (findMockValue rands k v).1 = (findMockValue rands' k' v).1 ∧
      (findMockValue rands k v).2 = k ∧ (findMockValue rands' k' v).2 = k' := by
  have hnp : ¬(¬containsSub "_IP".data v = true ∧ containsSub "_PORT".data v = true) := by
    rintro ⟨h1, h2⟩
    unfold hitsPortBranch at h
    cases hc : containsSub "_IP".data v with
    | false => rw [hc, h2] at h; exact absurd h (by decide)
    | true => exact h1 hc
  unfold findMockValue
  by_cases h1 : containsSub "_IP".data v = true
  · rw [if_pos h1, if_pos h1]
    exact ⟨rfl, rfl, rfl⟩
  · have h2 : ¬containsSub "_PORT".data v = true := fun hp => hnp ⟨h1, hp⟩
    rw [if_neg h1, if_neg h1, if_neg h2, if_neg h2]
    exact ⟨rfl, rfl, rfl⟩

theorem findMocks_no_port (entries : List VarEntry)
    (h : ∀ e ∈ entries, hitsPortBranch e.name = false) :
    ∀ rands rands' k k', findMocks rands k entries = findMocks rands' k' entries := by
  induction entries with
  | nil => intro _ _ _ _; rfl
  | cons e rest ih =>
    intro rands rands' k k'
    have he := h e (List.mem_cons_self e rest)
    have hr : ∀ x ∈ rest, hitsPortBranch x.name = false := fun x hx =>
      h x (List.mem_cons_of_mem e hx)
    obtain ⟨hv, _, _⟩ := findMockValue_no_port rands rands' k k' e.name he
    simp only [findMocks]
    rw [hv]
    exact congrArg _ (ih hr rands rands' _ _)
theorem splitLast_eq_none (c : Char) (l : List Char) (h : c ∉ l) :
    splitLast c l = none := by
  induction l with
  | nil => rfl
  | cons x xs ih =>
    have hx : ¬ x = c := fun he => h (by rw [he]; exact List.mem_cons_self c xs)
    simp only [splitLast]
    rw [ih fun hm => h (List.mem_cons_of_mem x hm)]
    simp [hx]

theorem splitLast_append (c : Char) (a b : List Char) (hb : c ∉ b) :
    splitLast c (a ++ c :: b) = some (a, b) := by
  induction a with
  | nil =>
    simp only [List.nil_append, splitLast]
    rw [splitLast_eq_none c b hb]
    simp
  | cons x xs ih =>
    simp only [List.cons_append, splitLast, List.append_eq]
    rw [ih]
theorem matchIdTail_chars (v : List Char) :
    ∀ b, matchIdTail b v = true → ∀ c ∈ v, isLowerAZ c = true ∨ c = '-' := by
  induction v with
  | nil => intro b _ c hc; exact absurd hc (List.not_mem_nil c)
  | cons x xs ih =>
    intro b h c hc
    simp only [matchIdTail] at h
    by_cases h1 : isLowerAZ x = true
    · rw [if_pos h1] at h
      rcases List.mem_cons.mp hc with rfl | hc'
      · exact Or.inl h1
      · exact ih false h c hc'
    · rw [if_neg h1] at h
      by_cases h2 : (x = '-' && !b) = true
      · rw [if_pos h2] at h
        rcases List.mem_cons.mp hc with rfl | hc'
        · exact Or.inr (of_decide_eq_true (Bool.and_eq_true_iff.mp h2).1)
        · exact ih true h c hc'
      · rw [if_neg h2] at h
        exact absurd h (by decide)

theorem lowerChar_ne (c : Char) (h : lowerChar c ≠ c) :
    65 ≤ c.toNat ∧ c.toNat ≤ 90 := by
  by_contra hn
  exact h (by unfold lowerChar; rw [if_neg hn])

theorem upper_not_allowed (c : Char) (h : 65 ≤ c.toNat ∧ c.toNat ≤ 90) :
    ¬(isLowerAZ c = true ∨ c = '-') := by
  rintro (hl | hd)
  · simp only [isLowerAZ, Bool.and_eq_true_iff, decide_eq_true_eq] at hl
    omega
  · rw [hd] at h
    revert h
    decide

theorem caseless_prefix_cases : ∀ (t v : List Char),
    (v.take t.length).map lowerChar = t →
      t.isPrefixOf v = true ∨ ∃ c ∈ v, lowerChar c ≠ c := by
  intro t
  induction t with
  | nil => intro v _; left; cases v <;> rfl
  | cons tc ts ih =>
    intro v hv
    cases v with
    | nil => simp at hv
    | cons vc vs =>
      simp only [List.length_cons, List.take_succ_cons, List.map_cons,
        List.cons.injEq] at hv
      obtain ⟨h1, h2⟩ := hv
      by_cases hvc : vc = tc
      · rcases ih vs h2 with hp | ⟨c, hc, hlc⟩
        · left
          simp [List.isPrefixOf, hvc, hp]
        · right
          exact ⟨c, List.mem_cons_of_mem _ hc, hlc⟩
      · right
        refine ⟨vc, List.mem_cons_self _ _, ?_⟩
        rw [h1]
        exact fun he => hvc he.symm

end Ulint

/-- C9: the store-manifest id `"My_Store"` always fails the identifier
format rule, `"my-store"` always passes it, and every id whose first 16
characters are `umbrel-app-store` in any letter case always fails
validation — exactly lowercase ids are caught by the reserved-prefix rule,
and any other casing contains an uppercase letter and is caught by the
lowercase-letters-and-dashes format rule. -/
theorem C9_store_id_rules :
    Ulint.validateStoreId "My_Store".data = false ∧
      Ulint.validateStoreId "my-store".data = true ∧
      ∀ v : List Char,
        (v.take 16).map Ulint.lowerChar = "umbrel-app-store".data →
          Ulint.validateStoreId v = false := by
  refine ⟨by decide, by decide, ?_⟩
  intro v hv
  have hv' : (v.take ("umbrel-app-store".data).length).map Ulint.lowerChar =
      "umbrel-app-store".data := by
    rw [show ("umbrel-app-store".data).length = 16 by decide]
    exact hv
  rcases Ulint.caseless_prefix_cases "umbrel-app-store".data v hv' with hp | ⟨c, hc, hlc⟩
  · simp [Ulint.validateStoreId, hp]
  · have hup := Ulint.lowerChar_ne c hlc
    have hnot := Ulint.upper_not_allowed c hup
    have hfmt : Ulint.storeIdFormat v = false := by
      cases hm : Ulint.storeIdFormat v with
      | false => rfl
      | true => exact absurd (Ulint.matchIdTail_chars v true hm c hc) hnot
    simp [Ulint.validateStoreId, hfmt]

/-- C9 witness: the mixed-case id `"Umbrel-App-Store"` fails validation. -/
theorem C9_witness :
    Ulint.validateStoreId "Umbrel-App-Store".data = false :=
  C9_store_id_rules.2.2 "Umbrel-App-Store".data (by decide)

/-- C7: parsing `registry.example.com/ns/app:1.2.3@sha256:<64 hex digits>`
into `{host, path, tag, digest}` and re-serialising yields exactly the
original string, for every 64-character hex digest. -/
theorem C7_image_roundtrip (hex : List Char) (hlen : hex.length = 64)
    (hhex : ∀ c ∈ hex, Ulint.isHexChar c = true) :
    (Ulint.DockerImage.fromString
        ("registry.example.com/ns/app:1.2.3@sha256:".data ++ hex)).str =
      "registry.example.com/ns/app:1.2.3@sha256:".data ++ hex := by
  clear hlen
  have hat : '@' ∉ hex := fun hm => by
    have h := hhex '@' hm
    exact absurd h (by decide)
  have hsuf : '@' ∉ ("sha256:".data ++ hex) := by
    intro hm
    rcases List.mem_append.mp hm with h | h
    · revert h; decide
    · exact hat h
  have hform : "registry.example.com/ns/app:1.2.3@sha256:".data ++ hex =
      "registry.example.com/ns/app:1.2.3".data ++ '@' :: ("sha256:".data ++ hex) := rfl
  have h1 : Ulint.splitDigest ("registry.example.com/ns/app:1.2.3@sha256:".data ++ hex) =
      ("registry.example.com/ns/app:1.2.3".data, some ("sha256:".data ++ hex)) := by
    unfold Ulint.splitDigest
    rw [hform, Ulint.splitLast_append '@' _ _ hsuf]
  unfold Ulint.DockerImage.fromString
  rw [h1]
  rfl

/-- C7 witness: the round trip at the all-`a` digest. -/
theorem C7_witness :
    (Ulint.DockerImage.fromString
        ("registry.example.com/ns/app:1.2.3@sha256:".data ++
          "aaaaaaaaaaaaaaaaaaaaaaaaaaaaaaaaaaaaaaaaaaaaaaaaaaaaaaaaaaaaaaaa".data)).str =
      "registry.example.com/ns/app:1.2.3@sha256:".data ++
        "aaaaaaaaaaaaaaaaaaaaaaaaaaaaaaaaaaaaaaaaaaaaaaaaaaaaaaaaaaaaaaaa".data :=
  C7_image_roundtrip
    "aaaaaaaaaaaaaaaaaaaaaaaaaaaaaaaaaaaaaaaaaaaaaaaaaaaaaaaaaaaaaaaa".data
    (by decide) (by decide)

/-- C3 counterexample: with architecture checking enabled, the image string
`"nginx"` parses but does not conform to the required digest format, yet
`validate_images` still performs architecture resolution on it and surfaces
the registry's architecture finding — so architecture resolution is NOT
restricted to format-conforming images. -/
theorem C3_counterexample :
    (Ulint.validateImages (fun _ => [Ulint.archFindingExample]) true "app"
        [("web", some "nginx".data)]).2 =
      [Ulint.DockerImage.fromString "nginx".data] ∧
      Ulint.conformsFormat "nginx".data = false ∧
      { Ulint.archFindingExample with
          file := "app/docker-compose.yml"
          properties_path := some "services.web.image" } ∈
        (Ulint.validateImages (fun _ => [Ulint.archFindingExample]) true "app"
          [("web", some "nginx".data)]).1 := by decide

/-- C3 (amended): architecture resolution is performed iff architecture
checking is enabled, and then for EVERY service whose image value is truthy
and hence parsed — conforming to the digest format is not required: with
checking disabled no image is resolved, with checking enabled exactly the
parsed images are resolved, in order. -/
theorem C3_arch_resolution_iff_enabled (oracle : Ulint.DockerImage → List Ulint.LintingError)
    (app_id : String) (services : List (String × Option (List Char))) :
    (Ulint.validateImages oracle false app_id services).2 = [] ∧
      (Ulint.validateImages oracle true app_id services).2 =
        services.filterMap
          (fun p => (Ulint.truthyImage p.2).map Ulint.DockerImage.fromString) := by
  induction services with
  | nil => exact ⟨rfl, rfl⟩
  | cons p rest ih =>
    obtain ⟨name, img?⟩ := p
    constructor
    · simp only [Ulint.validateImages]
      cases Ulint.truthyImage img? with
      | none => exact ih.1
      | some s => simpa using ih.1
    · simp only [Ulint.validateImages, List.filterMap_cons]
      cases Ulint.truthyImage img? with
      | none => exact ih.2
      | some s => simpa using ih.2

/-- C2: building a Report from the empty Report by inserting Findings one at a
time through `add_error`, in any order, the `success` flag is `false` iff at
least one inserted Finding has Error severity. -/
theorem C2_success_iff_error_inserted (l : List Ulint.LintingError) :
    (l.foldl Ulint.LintingResult.add_error Ulint.LintingResult.empty).success = false ↔
      ∃ e ∈ l, e.severity = Ulint.Severity.error := by
  rw [Ulint.foldl_add_error_success]
  simp [Ulint.LintingResult.empty]

/-- C4 counterexample: the mocking operation is NOT a deterministic function
of its input text.  On the input `"$A_PORT"` (a placeholder variable whose
name contains `_PORT`), two evaluations differing only in the value produced
by `random.randint(1024, 65535)` (1024 versus 1025) return different output
texts, so the claim fails exactly on the `_PORT` case it includes. -/
theorem C4_counterexample :
    Ulint.mockVariables (fun _ => 0) "$A_PORT".data ≠
      Ulint.mockVariables (fun _ => 1) "$A_PORT".data := by decide

/-- C4 (amended): variable mocking is deterministic for every input text none
of whose extracted placeholder variables reaches the random `_PORT` branch of
the keyword table (contains `_PORT` but not `_IP`); on such inputs the output
does not depend on the random stream. -/
theorem C4_mock_deterministic_no_port (content : List Char)
    (rands rands' : Nat → Nat)
    (h : ∀ e ∈ Ulint.extractVariables content, Ulint.hitsPortBranch e.name = false) :
    Ulint.mockVariables rands content = Ulint.mockVariables rands' content := by
  unfold Ulint.mockVariables
  rw [Ulint.findMocks_no_port (Ulint.extractVariables content) h rands rands' 0 0]

/-- C4 witness: the deterministic case applied to the concrete input
`"$A_HOST"` (no `_PORT` placeholder). -/
theorem C4_witness :
    Ulint.mockVariables (fun _ => 0) "$A_HOST".data =
      Ulint.mockVariables (fun _ => 1) "$A_HOST".data :=
  C4_mock_deterministic_no_port "$A_HOST".data (fun _ => 0) (fun _ => 1) (by decide)

/-- C5 counterexample: the variable name `"X_HOST_NAME"` contains both `_HOST`
and `_NAME` and none of the keywords the claim lists as earlier (`_IP`,
`_PORT`, `_PASS`, `_USER`, `_DIR`, `_PATH`, `_ROOT`, `_CONFIG`), yet the
chosen mock value is `"name"`, not the `_HOST` token `"host"`: in the code
the `_NAME` branch precedes the `_HOST` branch. -/
theorem C5_counterexample :
    (Ulint.findMockValue (fun _ => 0) 0 "X_HOST_NAME".data).1 = "name".data ∧
      Ulint.containsSub "_HOST".data "X_HOST_NAME".data = true ∧
      Ulint.containsSub "_NAME".data "X_HOST_NAME".data = true ∧
      Ulint.containsSub "_IP".data "X_HOST_NAME".data = false ∧
      Ulint.containsSub "_PORT".data "X_HOST_NAME".data = false ∧
      Ulint.containsSub "_PASS".data "X_HOST_NAME".data = false ∧
      Ulint.containsSub "_USER".data "X_HOST_NAME".data = false ∧
      Ulint.containsSub "_DIR".data "X_HOST_NAME".data = false ∧
      Ulint.containsSub "_PATH".data "X_HOST_NAME".data = false ∧
      Ulint.containsSub "_ROOT".data "X_HOST_NAME".data = false ∧
      Ulint.containsSub "_CONFIG".data "X_HOST_NAME".data = false ∧
      "name".data ≠ "host".data := by decide

/-- C5 (amended): the code's priority order is `_IP`, `_PORT`, `_PASS`,
`_USER`, `_DIR`, `_PATH`, `_SERVICE`, `_SEED`, `_CONFIG`, `_MODE`,
`_NETWORK`, `_DOMAIN`, `_NAME`, `_VERSION`, `_ROOT`, `_KEY`, `_SECRET`,
`_TOKEN`, `_HOST`; hence a variable name containing both `_HOST` and `_NAME`
and none of the keywords the code checks before `_NAME` resolves to the
`_NAME` token `"name"` (not `"host"`). -/
theorem C5_name_wins_over_host (rands : Nat → Nat) (k : Nat) (v : List Char)
    (hName : Ulint.containsSub "_NAME".data v = true)
    (hIP : Ulint.containsSub "_IP".data v = false)
    (hPort : Ulint.containsSub "_PORT".data v = false)
    (hPass : Ulint.containsSub "_PASS".data v = false)
    (hUser : Ulint.containsSub "_USER".data v = false)
    (hDir : Ulint.containsSub "_DIR".data v = false)
    (hPath : Ulint.containsSub "_PATH".data v = false)
    (hService : Ulint.containsSub "_SERVICE".data v = false)
    (hSeed : Ulint.containsSub "_SEED".data v = false)
    (hConfig : Ulint.containsSub "_CONFIG".data v = false)
    (hMode : Ulint.containsSub "_MODE".data v = false)
    (hNetwork : Ulint.containsSub "_NETWORK".data v = false)
    (hDomain : Ulint.containsSub "_DOMAIN".data v = false) :
    (Ulint.findMockValue rands k v).1 = "name".data := by
  unfold Ulint.findMockValue
  rw [if_neg (by simp [hIP]), if_neg (by simp [hPort])]
  simp [Ulint.tableLookup, Ulint.mockTail, hPass, hUser, hDir, hPath, hService,
    hSeed, hConfig, hMode, hNetwork, hDomain, hName]

/-- C5 witness: the amended ordering applied to `"X_HOST_NAME"`. -/
theorem C5_witness :
    (Ulint.findMockValue (fun _ => 0) 0 "X_HOST_NAME".data).1 = "name".data :=
  C5_name_wins_over_host (fun _ => 0) 0 "X_HOST_NAME".data (by decide) (by decide)
    (by decide) (by decide) (by decide) (by decide) (by decide) (by decide)
    (by decide) (by decide) (by decide) (by decide) (by decide)

/-- C8: mocking is the identity on text containing no placeholder occurrence
(no `$NAME` / `${NAME}` match of the extraction regex), and consequently
mocking is idempotent on every input whose mocked form contains no further
placeholders. -/
theorem C8_mock_idempotent (rands rands' : Nat → Nat) (x y : List Char) :
    (Ulint.extractVariables x = [] → Ulint.mockVariables rands x = x) ∧
      (Ulint.extractVariables (Ulint.mockVariables rands' y) = [] →
        Ulint.mockVariables rands (Ulint.mockVariables rands' y) =
          Ulint.mockVariables rands' y) := by
  have main : ∀ z, Ulint.extractVariables z = [] → Ulint.mockVariables rands z = z := by
    intro z hz
    simp only [Ulint.mockVariables, hz]
    rfl
  exact ⟨main x, main (Ulint.mockVariables rands' y)⟩

/-- C8 witness: concrete instance on `"abc: [def]"` (no placeholders) and
`"p: $APP_SEED"` (whose mocked form `"p: seed"` has no placeholders). -/
theorem C8_witness :
    Ulint.mockVariables (fun _ => 0) "abc: [def]".data = "abc: [def]".data ∧
      Ulint.mockVariables (fun _ => 0)
          (Ulint.mockVariables (fun _ => 1) "p: $APP_SEED".data) =
        Ulint.mockVariables (fun _ => 1) "p: $APP_SEED".data :=
  ⟨(C8_mock_idempotent (fun _ => 0) (fun _ => 0) "abc: [def]".data []).1 (by decide),
   (C8_mock_idempotent (fun _ => 0) (fun _ => 1) [] "p: $APP_SEED".data).2 (by decide)⟩

/-- C10 counterexample: `_repo_exists` with a definite but non-404 response
(status 500) returns `false`, so its caller `_validate_github_repo_url` emits
the "Repository not found" Finding even though no 404-style negative answer
was received — refuting the claim that only a definite 404 yields an
existence Finding. -/
theorem C10_counterexample :
    (Ulint.repoExists [] "https://github.com/o/r".data (.ok 500)).1 = false ∧
      (500 : Nat) ≠ 404 ∧ (500 : Nat) ≠ 200 := by decide

/-- C10 (amended): on any exception both existence checks assume the result
exists (no 'not found' Finding) and cache `true`, so later checks of the same
URL in the run also report existence; a 'not found' answer arises for the
pull-request check exactly on status 404, but for the repository check on
EVERY status other than 200 (the callers emit their existence Finding exactly
when these checks return `false`). -/
theorem C10_network_failure_assumes_exists (url : List Char)
    (parsed : Option (List Char × List Char × List Char))
    (cache : List (List Char × Bool)) (h : Ulint.cacheLookup cache url = none) :
    (Ulint.prExists cache url parsed (.error ())).1 = true ∧
      (Ulint.repoExists cache url (.error ())).1 = true ∧
      Ulint.cacheLookup (Ulint.prExists cache url parsed (.error ())).2 url = some true ∧
      Ulint.cacheLookup (Ulint.repoExists cache url (.error ())).2 url = some true ∧
      (∀ (cache' : List (List Char × Bool)) parsed' resp,
        Ulint.cacheLookup cache' url = some true →
          (Ulint.prExists cache' url parsed' resp).1 = true ∧
            (Ulint.repoExists cache' url resp).1 = true) ∧
      (∀ s : Nat, (Ulint.prExists cache url parsed (.ok s)).1 = false ↔ s = 404) ∧
      (∀ s : Nat, (Ulint.repoExists cache url (.ok s)).1 = false ↔ s ≠ 200) := by
  refine ⟨?_, ?_, ?_, ?_, ?_, ?_, ?_⟩
  · simp [Ulint.prExists, h]
  · simp [Ulint.repoExists, h]
  · simp [Ulint.prExists, Ulint.cacheInsert, Ulint.cacheLookup, h]
  · simp [Ulint.repoExists, Ulint.cacheInsert, Ulint.cacheLookup, h]
  · intro cache' parsed' resp hc
    exact ⟨by simp [Ulint.prExists, hc], by simp [Ulint.repoExists, hc]⟩
  · intro s
    cases parsed with
    | none =>
      by_cases h200 : s = 200
      · simp [Ulint.prExists, h, h200]
      · by_cases h404 : s = 404 <;> simp [Ulint.prExists, h, h200, h404]
    | some p =>
      by_cases h200 : s = 200
      · simp [Ulint.prExists, h, h200]
      · by_cases h404 : s = 404 <;> simp [Ulint.prExists, h, h200, h404]
  · intro s
    by_cases h200 : s = 200 <;> simp [Ulint.repoExists, h, h200]

/-- C10 witness: the amended behaviour at a concrete URL — an exception
yields `true` and caches it, and a 500 response on the repository check
yields `false`. -/
theorem C10_witness :
    (Ulint.prExists [] "https://github.com/o/r/pull/1".data
        (some ("o".data, "r".data, "1".data)) (.error ())).1 = true ∧
      (Ulint.repoExists [] "https://github.com/o/r".data (.ok 500)).1 = false :=
  ⟨(C10_network_failure_assumes_exists "https://github.com/o/r/pull/1".data
      (some ("o".data, "r".data, "1".data)) [] (by decide)).1,
   ((C10_network_failure_assumes_exists "https://github.com/o/r".data none []
      (by decide)).2.2.2.2.2.2 500).mpr (by decide)⟩

/-- C1: the claim (and spec sections 4.3/7) require that when the manifest
object cannot be constructed and other apps' manifests are supplied, the
duplicate-port check is skipped and the findings list is still returned
normally.  The code instead evaluates `manifest.port` with `manifest = None`
and raises `AttributeError` past `_validate_app_manifest`: with a failed
schema result and one other manifest in the context the embedded function
returns the `AttributeError` outcome, while with an empty manifest list the
same failed validation returns its findings normally — so the guard is
missing exactly on the duplicate-port branch (the new-submission branch has
it). -/
theorem C1_duplicate_port_check_raises :
    Ulint.validateAppManifestChecks []
        (.error Ulint.schemaFailureFindingExample) "my-app".data
        { all_app_manifests :=
            [some { id := some "other-app".data
                    name := some "Other".data
                    port := some 3000 }] } =
      .error Ulint.PyError.attributeError ∧
      Ulint.validateAppManifestChecks []
        (.error Ulint.schemaFailureFindingExample) "my-app".data {} =
        .ok [Ulint.schemaFailureFindingExample] := ⟨rfl, rfl⟩

/-- C6: in the Report returned by the store-path of `lint_all_apps` the
derived counters do NOT equal the per-severity finding counts: merging uses
`errors.extend`, which bypasses `add_error`, so for an empty community store
directory the merged Report contains one Error and one Warning finding while
`total_errors` and `total_warnings` remain 0 (`success` is merged
correctly). -/
theorem C6_merged_counters_stay_zero :
    ((Ulint.lintAllAppsMerge Ulint.emptyDirStoreResult []).errors.countP
        (fun e => decide (e.severity = Ulint.Severity.error)) = 1) ∧
      ((Ulint.lintAllAppsMerge Ulint.emptyDirStoreResult []).errors.countP
        (fun e => decide (e.severity = Ulint.Severity.warning)) = 1) ∧
      (Ulint.lintAllAppsMerge Ulint.emptyDirStoreResult []).total_errors = 0 ∧
      (Ulint.lintAllAppsMerge Ulint.emptyDirStoreResult []).total_warnings = 0 ∧
      (Ulint.lintAllAppsMerge Ulint.emptyDirStoreResult []).success = false := by decide
